import Mathlib

/-!
Verification of the State + Memento mini-framework of the design-patterns
repository: the `Canvas`/`Tool` state machine
(src/src/patterns/state, src/unnamed/part_000) and the
`Editor`/`EditorState`/`EditorHistory` snapshot-and-restore mechanism
(src/src/patterns/memento, src/unnamed/part_001).

The TypeScript classes are embedded shallowly as pure Lean structures:
side effects (console output) become explicit output lists, the possibly
`undefined` fields become `Option`-valued fields, and a runtime
`TypeError` from calling a method on `undefined` becomes an explicit
error value of `JsError`.
-/

/-- A tool variant (`Tool` interface, src/src/patterns/state/tool).
Per the data model each variant is stateless and its two handlers are
pure side-effecting reactions with no return value, so a tool is modelled
by the console output each handler emits when dispatched. -/
structure Tool where
  mouseDown : List String
  mouseUp : List String
deriving DecidableEq

/-- `EraserTool` (src/src/patterns/state/states/EraserTool.ts): each
handler logs one fixed line. -/
def EraserTool : Tool :=
  { mouseDown := ["eraser tool selected"], mouseUp := ["erasing from canvas"] }

/-- `SelectionTool` (src/src/patterns/state/states/SelectionTool.ts). -/
def SelectionTool : Tool :=
  { mouseDown := ["selection tool selected"], mouseUp := ["draw box"] }

/-- The ways a dispatched call can fail at runtime in the JS source:
either the engine raises a `TypeError` because a method was invoked on an
absent (`undefined`) reference, or user code throws an explicit error
with a message. The source never throws explicitly; the constructor is
here so that "fails with an explicit error" is expressible. -/
inductive JsError where
  | nullReferenceFault
  | explicitError (msg : String)
deriving DecidableEq

/-- `Canvas` (src/unnamed/part_000): `private tool: Tool;` with no
initializer, so before the first `setTool` the field holds `undefined`;
hence the field is `Option Tool`, `none` on a fresh canvas. -/
structure Canvas where
  tool : Option Tool
deriving DecidableEq

/-- `new Canvas()`: the class has no constructor and no field
initializer, so `tool` starts out absent. -/
def Canvas.new : Canvas := { tool := none }

/-- `setTool(tool) { this.tool = tool; }` — the body is a single field
assignment and contains no `console.log` and no call on any tool, so its
output component is `[]`. -/
def Canvas.setTool (c : Canvas) (t : Tool) : Canvas × List String :=
  ({ c with tool := some t }, [])

/-- `mouseUp() { this.tool.mouseUp(); }` — when `tool` is absent the
member access on `undefined` raises a `TypeError` (a null-reference
fault); otherwise the active tool's handler runs and its output is
emitted. -/
def Canvas.mouseUp (c : Canvas) : Except JsError (List String) :=
  match c.tool with
  | none => .error .nullReferenceFault
  | some t => .ok t.mouseUp

/-- `mouseDown() { this.tool.mouseDown(); }` — same shape as `mouseUp`. -/
def Canvas.mouseDown (c : Canvas) : Except JsError (List String) :=
  match c.tool with
  | none => .error .nullReferenceFault
  | some t => .ok t.mouseDown

/-- A sequence of consecutive `setTool` calls, applied left to right. -/
def Canvas.setTools (c : Canvas) : List Tool → Canvas
  | [] => c
  | t :: ts => ((c.setTool t).1).setTools ts

/-- Modelled from the spec: the class `EditorState` is imported by
src/src/patterns/memento/Editor.ts and src/unnamed/part_001 but its file
is absent from the sources. Per the spec it is an immutable value object
whose constructor captures the editor's content at creation time and
which exposes no mutator. The captured value is `Option String` because
the `Editor.content` field it copies may still be `undefined` on a fresh
editor. -/
structure EditorState where
  content : Option String
deriving DecidableEq

/-- Modelled from the spec: `getContent()` on a snapshot returns the
captured value, unchanged since construction. -/
def EditorState.getContent (s : EditorState) : Option String := s.content

/-- `Editor` (src/src/patterns/memento/Editor.ts): `private content:
string;` with no initializer, so the field holds `undefined` until the
first `setContent`; hence `Option String`, `none` on a fresh editor. -/
structure Editor where
  content : Option String
deriving DecidableEq

/-- `new Editor()`: no constructor, no field initializer. -/
def Editor.new : Editor := { content := none }

/-- `getContent() { return this.content; }` -/
def Editor.getContent (e : Editor) : Option String := e.content

/-- `setContent(content: string) { this.content = content; }` -/
def Editor.setContent (e : Editor) (c : String) : Editor :=
  { e with content := some c }

/-- `createState() { return new EditorState(this.content); }` — the
snapshot constructor receives the current content value. JS strings are
immutable primitive values, so passing `this.content` hands the snapshot
an independent copy of the value, faithfully rendered by this pure
function. -/
def Editor.createState (e : Editor) : EditorState :=
  { content := e.content }

/-- `restore(state) { this.setContent(state.getContent()); }` — at
runtime this assigns the snapshot's captured value (possibly
`undefined`) to `this.content`, so the embedding assigns the snapshot's
`Option String` directly. -/
def Editor.restore (e : Editor) (s : EditorState) : Editor :=
  { e with content := s.getContent }

/-- One content-affecting operation of the editor's public interface. -/
inductive EditorOp where
  | set (c : String)
  | restore (s : EditorState)

/-- Apply one operation. -/
def Editor.applyOp (e : Editor) : EditorOp → Editor
  | .set c => e.setContent c
  | .restore s => e.restore s

/-- Apply a trace of operations left to right. -/
def Editor.applyOps (e : Editor) : List EditorOp → Editor
  | [] => e
  | op :: ops => (e.applyOp op).applyOps ops

/-- `EditorHistory` (src/unnamed/part_001): `public history = [];` — a
JS array used as a stack, its front at index 0 and its most-recent end at
the back, rendered as a `List` whose last element is the most recently
pushed one. -/
structure EditorHistory where
  history : List EditorState
deriving DecidableEq

/-- `new EditorHistory()`: the field initializer makes the array empty. -/
def EditorHistory.new : EditorHistory := { history := [] }

/-- `push(editor) { this.history.push(editor); }` —
`Array.prototype.push` appends at the end. -/
def EditorHistory.push (h : EditorHistory) (s : EditorState) : EditorHistory :=
  { history := h.history ++ [s] }

/-- `pop() { return this.history.pop(); }` — `Array.prototype.pop`
removes and returns the last element, and returns `undefined` on an
empty array, leaving it empty; the possibly-absent return value is the
first component, the updated history the second. -/
def EditorHistory.pop (h : EditorHistory) : Option EditorState × EditorHistory :=
  match h.history.getLast? with
  | none => (none, h)
  | some s => (some s, { history := h.history.dropLast })

theorem Editor.applyOps_append (e : Editor) (l1 l2 : List EditorOp) :
    e.applyOps (l1 ++ l2) = (e.applyOps l1).applyOps l2 := by
  induction l1 generalizing e with
  | nil => rfl
  | cons op ops ih => simp [Editor.applyOps, ih]

theorem Canvas.setTools_append (c : Canvas) (l1 l2 : List Tool) :
    c.setTools (l1 ++ l2) = (c.setTools l1).setTools l2 := by
  induction l1 generalizing c with
  | nil => rfl
  | cons t ts ih => simp [Canvas.setTools, ih]

/-- C1 counterexample: on a freshly constructed `Canvas` (no `setTool`
ever called) both dispatch methods fail with the JS null-reference fault
(`TypeError` on the `undefined` tool), not with an explicit
"no tool set" error as the claim states. -/
theorem canvas_fresh_dispatch_is_nullref :
    Canvas.new.mouseDown = Except.error JsError.nullReferenceFault ∧
    Canvas.new.mouseUp = Except.error JsError.nullReferenceFault :=
  ⟨rfl, rfl⟩

/-- C1 (amended): dispatching `mouseDown` or `mouseUp` on a `Canvas`
whose tool was never set does not silently no-op — it fails immediately,
but with a null-reference fault, and never with an explicitly thrown
error. -/
theorem canvas_no_tool_dispatch_faults (c : Canvas) (h : c.tool = none) :
    c.mouseDown = Except.error JsError.nullReferenceFault ∧
    c.mouseUp = Except.error JsError.nullReferenceFault := by
  simp [Canvas.mouseDown, Canvas.mouseUp, h]

/-- C1 witness: the amended statement at the fresh canvas. -/
theorem canvas_no_tool_dispatch_faults_witness :
    Canvas.new.mouseDown = Except.error JsError.nullReferenceFault ∧
    Canvas.new.mouseUp = Except.error JsError.nullReferenceFault :=
  canvas_no_tool_dispatch_faults Canvas.new rfl

/-- C2: on a history holding zero snapshots, `pop` returns the
option-typed absence `none`, which differs from `some s` for every real
snapshot `s` — an explicit empty-history signal, not a sentinel
indistinguishable from a stored snapshot. -/
theorem history_pop_empty_signals_absence (h : EditorHistory)
    (he : h.history = []) :
    (h.pop).1 = none ∧ ∀ s : EditorState, (h.pop).1 ≠ some s := by
  constructor
  · simp [EditorHistory.pop, he]
  · intro s
    simp [EditorHistory.pop, he]

/-- C2 witness: the statement at the freshly constructed history. -/
theorem history_pop_empty_signals_absence_witness :
    ((EditorHistory.new).pop).1 = none :=
  (history_pop_empty_signals_absence EditorHistory.new rfl).1

/-- C3: after `setContent a; s = createState(); setContent b` the
snapshot `s` still reads `a` while the editor reads `b`: snapshot
creation copies the content by value, so the later mutation never
retroactively changes the earlier snapshot. -/
theorem editor_snapshot_independence (e : Editor) (a b : String) :
    ((e.setContent a).createState).getContent = some a ∧
    ((e.setContent a).setContent b).getContent = some b :=
  ⟨rfl, rfl⟩

/-- C4: the history is a strict LIFO stack: `push` appends at the
most-recent end without dropping or deduplicating anything, `pop`
removes and returns the most recently pushed snapshot not yet popped,
and in the demo scenario pushes capturing "Hello", "I am", "Muhammad"
pop back as "Muhammad", "I am", "Hello". -/
theorem history_strict_lifo (h : EditorHistory) (l : List EditorState)
    (s : EditorState) (he : h.history = l ++ [s]) :
    ((h.push s).history = h.history ++ [s]) ∧
    (h.pop = (some s, EditorHistory.mk l)) ∧
    (let sHello := (Editor.new.setContent "Hello").createState
     let sIam := (Editor.new.setContent "I am").createState
     let sMuh := (Editor.new.setContent "Muhammad").createState
     let h3 := ((EditorHistory.new.push sHello).push sIam).push sMuh
     h3.pop = (some sMuh, (EditorHistory.new.push sHello).push sIam) ∧
     ((EditorHistory.new.push sHello).push sIam).pop =
       (some sIam, EditorHistory.new.push sHello) ∧
     (EditorHistory.new.push sHello).pop = (some sHello, EditorHistory.new)) := by
  refine ⟨rfl, ?_, by decide⟩
  simp [EditorHistory.pop, EditorHistory.push, he]

/-- C4 witness: the pop clause at a one-element history. -/
theorem history_strict_lifo_witness :
    (EditorHistory.mk [EditorState.mk (some "x")]).pop =
      (some (EditorState.mk (some "x")), EditorHistory.mk []) :=
  (history_strict_lifo (EditorHistory.mk [EditorState.mk (some "x")]) []
    (EditorState.mk (some "x")) rfl).2.1

/-- C5: after any trace of operations, `getContent` reflects exactly the
most recent `setContent` or `restore` — a trace ending in
`setContent c` reads `some c` and a trace ending in `restore s` reads
the snapshot's captured value, whatever the content was before. -/
theorem editor_content_no_lag (e : Editor) (ops : List EditorOp)
    (c : String) (s : EditorState) :
    (e.applyOps (ops ++ [EditorOp.set c])).getContent = some c ∧
    (e.applyOps (ops ++ [EditorOp.restore s])).getContent = s.getContent := by
  constructor <;>
    rw [Editor.applyOps_append] <;> rfl

/-- C6: after any nonempty sequence of `setTool` calls, the active tool
is the most recently set one, and the next dispatched `mouseDown` or
`mouseUp` runs exactly that tool's handler — never a stale tool's. -/
theorem canvas_routes_to_last_tool (c : Canvas) (ts : List Tool) (t : Tool) :
    ((c.setTools (ts ++ [t])).tool = some t) ∧
    ((c.setTools (ts ++ [t])).mouseDown = Except.ok t.mouseDown) ∧
    ((c.setTools (ts ++ [t])).mouseUp = Except.ok t.mouseUp) := by
  rw [Canvas.setTools_append]
  exact ⟨rfl, rfl, rfl⟩

/-- C7: `setTool` alone (including re-setting the current tool) is
total, emits no output — so it invokes no handler of the new or the old
tool — and its entire effect is replacing the active tool reference. -/
theorem canvas_setTool_no_side_effect (c : Canvas) (t : Tool) :
    c.setTool t = ({ tool := some t }, ([] : List String)) :=
  rfl

/-- C8: a freshly constructed `Editor`, before any `setContent` or
`restore`, has its content field uninitialized, so `getContent` returns
the absent value. -/
theorem editor_fresh_content_undefined : Editor.new.getContent = none :=
  rfl

/-- C9: restoring an editor from a snapshot it just created leaves the
editor (its entire state) unchanged. -/
theorem editor_restore_roundtrip (e : Editor) (c : String)
    (h : e.getContent = some c) :
    e.restore e.createState = e :=
  rfl

/-- C9 witness: the round trip at a concretely set editor. -/
theorem editor_restore_roundtrip_witness :
    (Editor.new.setContent "A").restore (Editor.new.setContent "A").createState =
      Editor.new.setContent "A" :=
  editor_restore_roundtrip (Editor.new.setContent "A") "A" rfl

/-- C10: pushing a snapshot and immediately popping returns exactly that
snapshot and restores the history to its prior state, whatever that
state was. -/
theorem history_push_pop_roundtrip (h : EditorHistory) (s : EditorState) :
    (h.push s).pop = (some s, h) := by
  cases h with
  | mk l =>
    simp [EditorHistory.push, EditorHistory.pop, List.getLast?_concat,
      List.dropLast_concat]
